import Mathlib

/-!
Shallow embedding of `RedisRemoteOtaiInterface.cpp` (sonic-otn otairedis client).

The Protocol Facade is modelled as pure functions over an explicit state
(`IfaceState`).  External collaborators (the transport channel, the attribute
serialization codec, the identifier virtualizer, the metadata transfer
routine, the stat decoder) are passed in as function arguments or as inputs
(the value a blocking `wait` would return), exactly at the interface the C++
code calls them.  Commands enqueued on the transport and the blocking waits
are recorded as an explicit list of `ChannelOp` effects.  Code that throws
(`SWSS_LOG_THROW`) is modelled with `Except String`.
-/

/-- Status codes of `otai_status_t` used by this translation unit.  Distinct
constructors model the distinct C macro values; `other` covers the rest of
the code space. -/
inductive OtaiStatus where
  | success
  | failure
  | insufficientResources
  | bufferOverflow
  | notImplemented
  | other (code : Int)
deriving DecidableEq, Repr

/-- Attribute values as far as this translation unit distinguishes them: a
single object id, an object-id list, a notification callback pointer
(`Option` models a possibly-null pointer), or an opaque payload. -/
inductive OtaiAttrValue where
  | oid (v : Nat)
  | oidList (vs : List Nat)
  | notifPtr (p : Option Nat)
  | raw (s : String)
deriving DecidableEq, Repr

/-- An `otai_attribute_t`: attribute id plus value. -/
structure OtaiAttr where
  id : Nat
  value : OtaiAttrValue
deriving DecidableEq, Repr

/-- The `otai_linecard_notifications_t` callback table: four callback
pointers, `none` modelling a null pointer. -/
structure LinecardNotifications where
  notify1 : Option Nat
  notify2 : Option Nat
  notify3 : Option Nat
  notify4 : Option Nat
deriving DecidableEq, Repr

/-- The all-null table `{nullptr, nullptr, nullptr, nullptr}` returned on the
dropped-notification paths of `syncProcessNotification`. -/
def emptyLinecardNotifications : LinecardNotifications :=
  { notify1 := none, notify2 := none, notify3 := none, notify4 := none }

/-- Modelled from the spec: the `Linecard` class (Root Entity) is not under
src/; per the spec it holds its identifier and a table of
notification-callback references captured from attributes. -/
structure Linecard where
  objectId : Nat
  notifications : LinecardNotifications
deriving DecidableEq, Repr

/-- The mutable state of `RedisRemoteOtaiInterface` that this translation
unit reads and writes: the `m_initialized` flag and the tracked linecard
(`m_linecard`, `none` modelling a null shared pointer). -/
structure IfaceState where
  m_initialized : Bool
  m_linecard : Option Linecard
deriving DecidableEq, Repr

/-- Effects performed on the transport channel, one constructor per command
tag written by this file, plus the blocking `wait` and `flush`. -/
inductive ChannelOp where
  | create (key : String) (fields : List (String × String))
  | remove (key : String)
  | set (key : String) (fields : List (String × String))
  | get (key : String) (fields : List (String × String))
  | getStats (key : String) (fields : List (String × String))
  | clearStats (key : String) (fields : List (String × String))
  | wait
  | flush
deriving DecidableEq, Repr

/-- Observable steps of the notification dispatch path
(`syncProcessNotification`). -/
inductive NotifEffect where
  | logWarnMetaExpired
  | processMetadata
  | logWarnNoLinecard
deriving DecidableEq, Repr

/-- `OTAI_NULL_OBJECT_ID`. -/
def OTAI_NULL_OBJECT_ID : Nat := 0

/-- `OTAI_OBJECT_TYPE_LINECARD` (the root type); the concrete enum value is
irrelevant to the claims, only its distinctness. -/
def OTAI_OBJECT_TYPE_LINECARD : Nat := 1

/-- Modelled from the spec: `OTAI_LINECARD_ATTR_CUSTOM_RANGE_START`, the
start of the reserved vendor-extension attribute-id range on the root type
(header not under src/). -/
def OTAI_LINECARD_ATTR_CUSTOM_RANGE_START : Nat := 0x10000000

/-- Modelled from the spec: `OTAI_REDIS_LINECARD_ATTR_FLUSH`, the only
extension id defined inside the reserved range (header not under src/). -/
def OTAI_REDIS_LINECARD_ATTR_FLUSH : Nat := OTAI_LINECARD_ATTR_CUSTOM_RANGE_START

/-- Modelled from the spec: attribute ids of the root type's four
notification-callback attributes (headers not under src/); only their
distinctness matters. -/
def OTAI_LINECARD_ATTR_NOTIFY_ID_1 : Nat := 3

/-- Modelled from the spec: second notification-callback attribute id. -/
def OTAI_LINECARD_ATTR_NOTIFY_ID_2 : Nat := 4

/-- Modelled from the spec: third notification-callback attribute id. -/
def OTAI_LINECARD_ATTR_NOTIFY_ID_3 : Nat := 5

/-- Modelled from the spec: fourth notification-callback attribute id. -/
def OTAI_LINECARD_ATTR_NOTIFY_ID_4 : Nat := 6

/-- `otai_serialize_object_type` (external codec); only used opaquely to
build command keys. -/
def otai_serialize_object_type (t : Nat) : String := toString t

/-- `otai_serialize_object_id` (external codec); only used opaquely to build
command keys. -/
def otai_serialize_object_id (oid : Nat) : String := toString oid

/-- Modelled from the spec: `Utils::clearOidValues` (Utils.cpp is not under
src/).  Per the spec, any list-valued (object-id list) field of the caller
buffer is reset to an empty/null representation; other fields are kept. -/
def clearOidValue (a : OtaiAttr) : OtaiAttr :=
  match a.value with
  | OtaiAttrValue.oidList _ => { a with value := OtaiAttrValue.oidList [] }
  | _ => a

/-- Modelled from the spec: buffer-wide `Utils::clearOidValues`. -/
def clearOidValues (objectType : Nat) (attr_list : List OtaiAttr) : List OtaiAttr :=
  attr_list.map clearOidValue

/-- Modelled from the spec: refresh one slot of the callback table from an
attribute carrying a callback pointer (part of the `Linecard` class, not
under src/). -/
def updateNotificationSlot (tbl : LinecardNotifications) (attr : OtaiAttr) :
    LinecardNotifications :=
  match attr.value with
  | OtaiAttrValue.notifPtr p =>
      if attr.id = OTAI_LINECARD_ATTR_NOTIFY_ID_1 then { tbl with notify1 := p }
      else if attr.id = OTAI_LINECARD_ATTR_NOTIFY_ID_2 then { tbl with notify2 := p }
      else if attr.id = OTAI_LINECARD_ATTR_NOTIFY_ID_3 then { tbl with notify3 := p }
      else if attr.id = OTAI_LINECARD_ATTR_NOTIFY_ID_4 then { tbl with notify4 := p }
      else tbl
  | _ => tbl

/-- Modelled from the spec: the `Linecard` constructor captures
notification-callback pointers present in the attribute list. -/
def captureNotifications (attr_list : List OtaiAttr) : LinecardNotifications :=
  attr_list.foldl updateNotificationSlot emptyLinecardNotifications

/-- Modelled from the spec: `Linecard::updateNotifications(1, attr)`
refreshes the callback table from one attribute. -/
def Linecard.updateNotifications (lc : Linecard) (attr : OtaiAttr) : Linecard :=
  { lc with notifications := updateNotificationSlot lc.notifications attr }

/-- Modelled from the spec: `Notification::executeCallback(sn)` invokes the
callbacks present in the table; the result lists the callback pointers that
would be invoked (empty list: no user callback runs). -/
def executeCallback (sn : LinecardNotifications) : List Nat :=
  sn.notify1.toList ++ sn.notify2.toList ++ sn.notify3.toList ++ sn.notify4.toList

/-- True when a modelled operation aborted with a fatal error
(`SWSS_LOG_THROW`). -/
def isFatal {α : Type} (e : Except String α) : Bool :=
  match e with
  | Except.error _ => true
  | Except.ok _ => false

namespace RedisRemoteOtaiInterface

/-- `RedisRemoteOtaiInterface::isRedisAttribute` (the `attr == nullptr`
clause is dropped: attributes are values here, never null pointers). -/
def isRedisAttribute (objectType : Nat) (attr : OtaiAttr) : Bool :=
  if objectType ≠ OTAI_OBJECT_TYPE_LINECARD ∨
      attr.id < OTAI_LINECARD_ATTR_CUSTOM_RANGE_START then
    false
  else
    true

/-- `RedisRemoteOtaiInterface::setRedisExtensionAttribute` (null-attr check
dropped as above; the flush on the channel is recorded as an effect). -/
def setRedisExtensionAttribute (objectType objectId : Nat) (attr : OtaiAttr) :
    OtaiStatus × List ChannelOp :=
  if attr.id = OTAI_REDIS_LINECARD_ATTR_FLUSH then
    (OtaiStatus.success, [ChannelOp.flush])
  else
    (OtaiStatus.failure, [])

/-- The serialized-id overload `create(object_type, serializedObjectId,
attr_count, attr_list)`: serialize the attributes (codec passed in as
`serialize`), substitute the sentinel pair when empty, enqueue CREATE, then
block on `waitForResponse` whose channel result is the input `waitStatus`. -/
def createSerialized (serialize : Nat → List OtaiAttr → List (String × String))
    (waitStatus : OtaiStatus) (object_type : Nat) (serializedObjectId : String)
    (attr_list : List OtaiAttr) : OtaiStatus × List ChannelOp :=
  let entry0 := serialize object_type attr_list
  let entry := if entry0 = [] then [(("NULL" : String), ("NULL" : String))] else entry0
  let key := otai_serialize_object_type object_type ++ ":" ++ serializedObjectId
  (waitStatus, [ChannelOp.create key entry, ChannelOp.wait])

/-- Top-level `RedisRemoteOtaiInterface::create`: allocate an id (linecard
ids via `allocLinecard`, others via `allocObj`, both inputs standing for the
Virtualizer), bail out on null id, otherwise run the serialized create and,
for a successful linecard create, materialize `m_linecard`.  Result:
(status, out objectId, new state, channel effects). -/
def create (st : IfaceState) (allocLinecard : Nat) (allocObj : Nat → Nat → Nat)
    (serialize : Nat → List OtaiAttr → List (String × String)) (waitStatus : OtaiStatus)
    (objectType linecardId : Nat) (attr_list : List OtaiAttr) :
    OtaiStatus × Nat × IfaceState × List ChannelOp :=
  if objectType = OTAI_OBJECT_TYPE_LINECARD then
    let lid := allocLinecard
    if lid = OTAI_NULL_OBJECT_ID then
      (OtaiStatus.failure, lid, st, [])
    else
      let r := createSerialized serialize waitStatus objectType
        (otai_serialize_object_id lid) attr_list
      if r.1 = OtaiStatus.success then
        (r.1, lid,
          { st with m_linecard := some ⟨lid, captureNotifications attr_list⟩ },
          r.2)
      else
        (r.1, lid, st, r.2)
  else
    let oid := allocObj objectType linecardId
    if oid = OTAI_NULL_OBJECT_ID then
      (OtaiStatus.insufficientResources, oid, st, [])
    else
      let r := createSerialized serialize waitStatus objectType
        (otai_serialize_object_id oid) attr_list
      (r.1, oid, st, r.2)

/-- The serialized-id overload of `remove`: enqueue REMOVE and block once. -/
def removeSerialized (waitStatus : OtaiStatus) (objectType : Nat)
    (serializedObjectId : String) : OtaiStatus × List ChannelOp :=
  let key := otai_serialize_object_type objectType ++ ":" ++ serializedObjectId
  (waitStatus, [ChannelOp.remove key, ChannelOp.wait])

/-- Top-level `RedisRemoteOtaiInterface::remove`: on success for the
linecard type, drop the tracked linecard. -/
def remove (st : IfaceState) (waitStatus : OtaiStatus) (objectType objectId : Nat) :
    OtaiStatus × IfaceState × List ChannelOp :=
  let r := removeSerialized waitStatus objectType (otai_serialize_object_id objectId)
  if objectType = OTAI_OBJECT_TYPE_LINECARD ∧ r.1 = OtaiStatus.success then
    (r.1, { st with m_linecard := none }, r.2)
  else
    (r.1, st, r.2)

/-- The serialized-id overload of `set`: serialize the single attribute,
enqueue SET, block once. -/
def setSerialized (serialize : Nat → List OtaiAttr → List (String × String))
    (waitStatus : OtaiStatus) (objectType : Nat) (serializedObjectId : String)
    (attr : OtaiAttr) : OtaiStatus × List ChannelOp :=
  let entry := serialize objectType [attr]
  let key := otai_serialize_object_type objectType ++ ":" ++ serializedObjectId
  (waitStatus, [ChannelOp.set key entry, ChannelOp.wait])

/-- Top-level `RedisRemoteOtaiInterface::set`: extension attributes are
dispatched locally via `setRedisExtensionAttribute`; otherwise SET goes to
the channel, and on success for the linecard type the tracked linecard (if
any) refreshes its callback table. -/
def set (st : IfaceState) (serialize : Nat → List OtaiAttr → List (String × String))
    (waitStatus : OtaiStatus) (objectType objectId : Nat) (attr : OtaiAttr) :
    OtaiStatus × IfaceState × List ChannelOp :=
  if isRedisAttribute objectType attr then
    let r := setRedisExtensionAttribute objectType objectId attr
    (r.1, st, r.2)
  else
    let r := setSerialized serialize waitStatus objectType
      (otai_serialize_object_id objectId) attr
    if objectType = OTAI_OBJECT_TYPE_LINECARD ∧ r.1 = OtaiStatus.success then
      match st.m_linecard with
      | some lc => (r.1, { st with m_linecard := some (lc.updateNotifications attr) }, r.2)
      | none => (r.1, st, r.2)
    else
      (r.1, st, r.2)

/-- `RedisRemoteOtaiInterface::waitForGetResponse`: `resp` is what the
blocking channel wait returned (status plus field/value payload); `transfer`
stands for `OtaiAttributeList` deserialization plus `transfer_attributes`
into the caller buffer (its `Bool` is the countOnly flag used on
BUFFER_OVERFLOW).  `SWSS_LOG_THROW` becomes `Except.error`. -/
def waitForGetResponse
    (transfer : Bool → List (String × String) → List OtaiAttr → List OtaiAttr)
    (resp : OtaiStatus × List (String × String)) (attr_list : List OtaiAttr) :
    Except String (OtaiStatus × List OtaiAttr) :=
  let status := resp.1
  let values := resp.2
  if status = OtaiStatus.success then
    if values.length = 0 then
      Except.error "logic error states = success, get response returned 0 values"
    else
      Except.ok (status, transfer false values attr_list)
  else if status = OtaiStatus.bufferOverflow then
    if values.length = 0 then
      Except.error "logic error status = BUFFER_OVERFLOW, get response returned 0 values"
    else
      Except.ok (status, transfer true values attr_list)
  else
    Except.ok (status, attr_list)

/-- The serialized-id overload of `get`: clear oid-list values from the
caller buffer, serialize it, enqueue GET (message path), block once.
Result: (outcome with the updated caller buffer, channel effects). -/
def get (serialize : Nat → List OtaiAttr → List (String × String))
    (transfer : Bool → List (String × String) → List OtaiAttr → List OtaiAttr)
    (resp : OtaiStatus × List (String × String)) (objectType : Nat)
    (serializedObjectId : String) (attr_list : List OtaiAttr) :
    Except String (OtaiStatus × List OtaiAttr) × List ChannelOp :=
  let cleared := clearOidValues objectType attr_list
  let entry := serialize objectType cleared
  let key := otai_serialize_object_type objectType ++ ":" ++ serializedObjectId
  (waitForGetResponse transfer resp cleared,
   [ChannelOp.get key entry, ChannelOp.wait])

/-- `RedisRemoteOtaiInterface::waitForGetStatsResponse`: on Success the
returned value count must equal the requested counter count or the call
aborts fatally; each value is decoded per its stat metadata (`decodeStat`
abstracts `otai_metadata_get_stat_metadata` plus `stoull`/`stod`). -/
def waitForGetStatsResponse (decodeStat : Nat → Nat → String → Nat)
    (resp : OtaiStatus × List (String × String)) (object_type : Nat)
    (counter_ids : List Nat) : Except String (OtaiStatus × List Nat) :=
  let status := resp.1
  if status = OtaiStatus.success then
    let values := resp.2
    if ¬ values.length = counter_ids.length then
      Except.error "wrong number of counters"
    else
      Except.ok (status,
        (counter_ids.zip values).map fun p => decodeStat object_type p.1 p.2.2)
  else
    Except.ok (status, [])

/-- `RedisRemoteOtaiInterface::getStats`: serialize the counter-id list
(codec passed as `serializeCounters`), enqueue GET_STATS, block once. -/
def getStats (serializeCounters : List Nat → List (String × String))
    (decodeStat : Nat → Nat → String → Nat)
    (resp : OtaiStatus × List (String × String)) (object_type object_id : Nat)
    (counter_ids : List Nat) :
    Except String (OtaiStatus × List Nat) × List ChannelOp :=
  let entry := serializeCounters counter_ids
  let key := otai_serialize_object_type object_type ++ ":"
    ++ otai_serialize_object_id object_id
  (waitForGetStatsResponse decodeStat resp object_type counter_ids,
   [ChannelOp.getStats key entry, ChannelOp.wait])

/-- `RedisRemoteOtaiInterface::getStatsExt`: explicitly unsupported. -/
def getStatsExt : OtaiStatus := OtaiStatus.notImplemented

/-- `RedisRemoteOtaiInterface::clear_local_state` as it affects the modelled
state: drops the tracked linecard (the Virtualizer rebuild is outside the
state). -/
def clear_local_state (st : IfaceState) : IfaceState :=
  { st with m_linecard := none }

/-- `RedisRemoteOtaiInterface::initialize`: fails while already initialized,
otherwise clears local state and becomes initialized. -/
def initializeIface (st : IfaceState) : OtaiStatus × IfaceState :=
  if st.m_initialized then
    (OtaiStatus.failure, st)
  else
    let st1 := clear_local_state st
    (OtaiStatus.success, { st1 with m_initialized := true })

/-- `RedisRemoteOtaiInterface::uninitialize`: fails while not initialized,
otherwise tears down the channel, clears local state and becomes
uninitialized. -/
def uninitializeIface (st : IfaceState) : OtaiStatus × IfaceState :=
  if ¬ st.m_initialized then
    (OtaiStatus.failure, st)
  else
    let st1 := clear_local_state st
    (OtaiStatus.success, { st1 with m_initialized := false })

/-- `RedisRemoteOtaiInterface::syncProcessNotification`: `metaAlive` is
whether the weak `m_meta` reference locked; on expiry, log and return the
all-null table without processing metadata; otherwise process metadata,
then return the tracked linecard's callback table, or the all-null table
(with a warning) when no linecard is tracked.  `notifObjectId` is the
notification's `getAnyObjectId()`, used only for the log message. -/
def syncProcessNotification (st : IfaceState) (metaAlive : Bool)
    (notifObjectId : Nat) : LinecardNotifications × List NotifEffect :=
  if ¬ metaAlive then
    (emptyLinecardNotifications, [NotifEffect.logWarnMetaExpired])
  else
    match st.m_linecard with
    | some lc => (lc.notifications, [NotifEffect.processMetadata])
    | none =>
        (emptyLinecardNotifications,
         [NotifEffect.processMetadata, NotifEffect.logWarnNoLinecard])

end RedisRemoteOtaiInterface

theorem clearOidValue_oidList (a : OtaiAttr) (xs : List Nat)
    (h : (clearOidValue a).value = OtaiAttrValue.oidList xs) : xs = [] := by
  cases hv : a.value <;> simp [clearOidValue, hv] at h <;> simp_all

namespace RedisRemoteOtaiInterface

/-- Claim C1, counterexample: `create` on the linecard type with the
Virtualizer returning the null object id returns `Failure`, not
`InsufficientResources` as the claim states (and issues no command). -/
theorem C1_counterexample :
    create ⟨true, none⟩ 0 (fun _ _ => 0) (fun _ _ => []) OtaiStatus.success
        OTAI_OBJECT_TYPE_LINECARD 0 [] =
      (OtaiStatus.failure, 0, ⟨true, none⟩, []) ∧
    OtaiStatus.failure ≠ OtaiStatus.insufficientResources := by
  constructor
  · rfl
  · decide

/-- Claim C1, amended: when identifier allocation returns the null object
id, `create` issues no CREATE command and performs no wait; for the
root/linecard type it returns `Failure`, for every other type it returns
`InsufficientResources`. -/
theorem C1_amended_alloc_failure (st : IfaceState) (allocLinecard : Nat)
    (allocObj : Nat → Nat → Nat)
    (serialize : Nat → List OtaiAttr → List (String × String))
    (waitStatus : OtaiStatus) (objectType linecardId : Nat)
    (attr_list : List OtaiAttr) :
    (objectType = OTAI_OBJECT_TYPE_LINECARD → allocLinecard = OTAI_NULL_OBJECT_ID →
      create st allocLinecard allocObj serialize waitStatus objectType linecardId
          attr_list =
        (OtaiStatus.failure, OTAI_NULL_OBJECT_ID, st, [])) ∧
    (objectType ≠ OTAI_OBJECT_TYPE_LINECARD →
      allocObj objectType linecardId = OTAI_NULL_OBJECT_ID →
      create st allocLinecard allocObj serialize waitStatus objectType linecardId
          attr_list =
        (OtaiStatus.insufficientResources, OTAI_NULL_OBJECT_ID, st, [])) := by
  constructor
  · intro ht ha
    simp [create, ht, ha]
  · intro ht ha
    simp [create, ht, ha]

/-- Witness for the amended C1, at a linecard call and a non-linecard call
with the allocator exhausted. -/
theorem C1_amended_alloc_failure_witness :
    create ⟨true, none⟩ 0 (fun _ _ => 0) (fun _ _ => []) OtaiStatus.success
        OTAI_OBJECT_TYPE_LINECARD 0 [] =
      (OtaiStatus.failure, OTAI_NULL_OBJECT_ID, ⟨true, none⟩, []) ∧
    create ⟨true, none⟩ 5 (fun _ _ => 0) (fun _ _ => []) OtaiStatus.success 2 0 [] =
      (OtaiStatus.insufficientResources, OTAI_NULL_OBJECT_ID, ⟨true, none⟩, []) :=
  ⟨(C1_amended_alloc_failure ⟨true, none⟩ 0 (fun _ _ => 0) (fun _ _ => [])
      OtaiStatus.success OTAI_OBJECT_TYPE_LINECARD 0 []).1 rfl rfl,
   (C1_amended_alloc_failure ⟨true, none⟩ 5 (fun _ _ => 0) (fun _ _ => [])
      OtaiStatus.success 2 0 []).2 (by decide) rfl⟩

/-- Claim C2: if the blocking wait of a get returns `Success` or
`BufferOverflow` together with an empty field/value payload, the operation
aborts fatally instead of returning that status. -/
theorem C2_get_empty_payload_fatal
    (transfer : Bool → List (String × String) → List OtaiAttr → List OtaiAttr)
    (status : OtaiStatus) (values : List (String × String))
    (attr_list : List OtaiAttr)
    (hs : status = OtaiStatus.success ∨ status = OtaiStatus.bufferOverflow)
    (hv : values = []) :
    isFatal (waitForGetResponse transfer (status, values) attr_list) = true := by
  subst hv
  cases hs with
  | inl h => subst h; rfl
  | inr h => subst h; rfl

/-- Witness for C2 at a `Success` response with empty payload. -/
theorem C2_get_empty_payload_fatal_witness :
    isFatal (waitForGetResponse (fun _ _ l => l) (OtaiStatus.success, []) []) =
      true :=
  C2_get_empty_payload_fatal (fun _ _ l => l) OtaiStatus.success [] []
    (Or.inl rfl) rfl

/-- Claim C3: a set on the linecard type whose attribute id lies in the
reserved vendor-extension range is dispatched locally for any tracked-entity
state: the FLUSH id flushes the channel and returns `Success` with no
command and no wait, any other id in the range returns `Failure` with no
effect at all; and for a non-linecard type the extension predicate never
fires even for ids in that range. -/
theorem C3_set_extension_dispatch (st : IfaceState)
    (serialize : Nat → List OtaiAttr → List (String × String))
    (waitStatus : OtaiStatus) (objectId : Nat) (attr : OtaiAttr)
    (h : OTAI_LINECARD_ATTR_CUSTOM_RANGE_START ≤ attr.id) :
    (attr.id = OTAI_REDIS_LINECARD_ATTR_FLUSH →
      set st serialize waitStatus OTAI_OBJECT_TYPE_LINECARD objectId attr =
        (OtaiStatus.success, st, [ChannelOp.flush])) ∧
    (attr.id ≠ OTAI_REDIS_LINECARD_ATTR_FLUSH →
      set st serialize waitStatus OTAI_OBJECT_TYPE_LINECARD objectId attr =
        (OtaiStatus.failure, st, [])) ∧
    (∀ t : Nat, t ≠ OTAI_OBJECT_TYPE_LINECARD →
      isRedisAttribute t attr = false) := by
  have hn : ¬ attr.id < OTAI_LINECARD_ATTR_CUSTOM_RANGE_START := Nat.not_lt.mpr h
  have hred : isRedisAttribute OTAI_OBJECT_TYPE_LINECARD attr = true := by
    simp [isRedisAttribute, hn]
  refine ⟨fun hf => ?_, fun hf => ?_, fun t ht => ?_⟩
  · simp [set, hred, setRedisExtensionAttribute, hf]
  · simp [set, hred, setRedisExtensionAttribute, hf]
  · simp [isRedisAttribute, ht]

/-- Witness for C3: a FLUSH set flushes and succeeds; the extension
predicate is false on a non-linecard type for the same attribute. -/
theorem C3_set_extension_dispatch_witness :
    set ⟨true, none⟩ (fun _ _ => []) OtaiStatus.failure OTAI_OBJECT_TYPE_LINECARD 7
        ⟨OTAI_REDIS_LINECARD_ATTR_FLUSH, OtaiAttrValue.raw "x"⟩ =
      (OtaiStatus.success, ⟨true, none⟩, [ChannelOp.flush]) ∧
    isRedisAttribute 2 ⟨OTAI_REDIS_LINECARD_ATTR_FLUSH, OtaiAttrValue.raw "x"⟩ =
      false := by
  have h := C3_set_extension_dispatch ⟨true, none⟩ (fun _ _ => [])
    OtaiStatus.failure 7 ⟨OTAI_REDIS_LINECARD_ATTR_FLUSH, OtaiAttrValue.raw "x"⟩
    (by decide)
  exact ⟨h.1 rfl, h.2.2 2 (by decide)⟩

/-- Claim C4: a getStats response with status `Success` whose value count
differs from the requested counter count aborts fatally instead of
returning normally. -/
theorem C4_getStats_count_mismatch_fatal (decodeStat : Nat → Nat → String → Nat)
    (values : List (String × String)) (object_type : Nat)
    (counter_ids : List Nat) (h : values.length ≠ counter_ids.length) :
    isFatal (waitForGetStatsResponse decodeStat (OtaiStatus.success, values)
      object_type counter_ids) = true := by
  simp [waitForGetStatsResponse, h, isFatal]

/-- Witness for C4: one value returned for zero requested counters. -/
theorem C4_getStats_count_mismatch_fatal_witness :
    isFatal (waitForGetStatsResponse (fun _ _ _ => 0)
      (OtaiStatus.success, [("a", "1")]) 1 []) = true :=
  C4_getStats_count_mismatch_fatal (fun _ _ _ => 0) [("a", "1")] 1 [] (by decide)

/-- Claim C5: a successful remove of the linecard type discards the tracked
linecard, and the notification dispatch path on a state with no tracked
linecard returns the all-null callback table (so no user callback is
invoked) and merely logs. -/
theorem C5_remove_drops_linecard (st : IfaceState) (objectId notifObjectId : Nat) :
    (remove st OtaiStatus.success OTAI_OBJECT_TYPE_LINECARD
      objectId).2.1.m_linecard = none ∧
    (∀ st2 : IfaceState, st2.m_linecard = none →
      syncProcessNotification st2 true notifObjectId =
        (emptyLinecardNotifications,
         [NotifEffect.processMetadata, NotifEffect.logWarnNoLinecard]) ∧
      executeCallback emptyLinecardNotifications = []) := by
  refine ⟨?_, fun st2 h2 => ⟨?_, rfl⟩⟩
  · simp [remove, removeSerialized]
  · simp [syncProcessNotification, h2]

/-- Witness for C5 at a state tracking linecard 9, then a dispatch on the
cleared state. -/
theorem C5_remove_drops_linecard_witness :
    (remove ⟨true, some ⟨9, emptyLinecardNotifications⟩⟩ OtaiStatus.success
      OTAI_OBJECT_TYPE_LINECARD 9).2.1.m_linecard = none ∧
    syncProcessNotification ⟨true, none⟩ true 9 =
      (emptyLinecardNotifications,
       [NotifEffect.processMetadata, NotifEffect.logWarnNoLinecard]) := by
  have h := C5_remove_drops_linecard ⟨true, some ⟨9, emptyLinecardNotifications⟩⟩ 9 9
  exact ⟨h.1, (h.2 ⟨true, none⟩ rfl).1⟩

/-- Claim C6: a notification processed after the weak metadata reference
expired only logs and returns the all-null callback table; it performs no
metadata processing, raises no error (the function returns normally), and
invokes no user callback. -/
theorem C6_meta_expired_drop (st : IfaceState) (notifObjectId : Nat) :
    syncProcessNotification st false notifObjectId =
      (emptyLinecardNotifications, [NotifEffect.logWarnMetaExpired]) ∧
    NotifEffect.processMetadata ∉
      (syncProcessNotification st false notifObjectId).2 ∧
    executeCallback emptyLinecardNotifications = [] := by
  refine ⟨rfl, ?_, rfl⟩
  simp [syncProcessNotification]

/-- Claim C7: when attribute serialization yields zero field/value entries,
the CREATE command carries exactly the sentinel pair, and a CREATE command
is never issued with zero fields. -/
theorem C7_create_sentinel
    (serialize : Nat → List OtaiAttr → List (String × String))
    (waitStatus : OtaiStatus) (object_type : Nat) (serializedObjectId : String)
    (attr_list : List OtaiAttr) :
    (serialize object_type attr_list = [] →
      (createSerialized serialize waitStatus object_type serializedObjectId
        attr_list).2 =
        [ChannelOp.create
           (otai_serialize_object_type object_type ++ ":" ++ serializedObjectId)
           [("NULL", "NULL")],
         ChannelOp.wait]) ∧
    (∀ key fields, ChannelOp.create key fields ∈
        (createSerialized serialize waitStatus object_type serializedObjectId
          attr_list).2 →
      fields ≠ []) := by
  constructor
  · intro he
    simp [createSerialized, he]
  · intro key fields hmem
    by_cases he : serialize object_type attr_list = []
    · simp [createSerialized, he] at hmem
      simp [hmem.2]
    · simp [createSerialized, he] at hmem
      rcases hmem with ⟨hk, hf⟩
      subst hf
      exact he

/-- Witness for C7: a create with zero attributes and an empty-result codec
writes exactly the sentinel field. -/
theorem C7_create_sentinel_witness :
    (createSerialized (fun _ _ => []) OtaiStatus.success 1 "oid1" []).2 =
      [ChannelOp.create (otai_serialize_object_type 1 ++ ":" ++ "oid1")
         [("NULL", "NULL")],
       ChannelOp.wait] ∧
    ([("NULL", "NULL")] : List (String × String)) ≠ [] := by
  have h := C7_create_sentinel (fun _ _ => []) OtaiStatus.success 1 "oid1" []
  refine ⟨h.1 rfl, ?_⟩
  exact h.2 (otai_serialize_object_type 1 ++ ":" ++ "oid1") [("NULL", "NULL")]
    (by rw [h.1 rfl]; exact List.mem_cons_self _ _)

/-- Claim C8: the GET command transmits the serialization of the
oid-list-cleared caller buffer, and in that cleared buffer every
object-id-list value is empty. -/
theorem C8_get_clears_oid_lists
    (serialize : Nat → List OtaiAttr → List (String × String))
    (transfer : Bool → List (String × String) → List OtaiAttr → List OtaiAttr)
    (resp : OtaiStatus × List (String × String)) (objectType : Nat)
    (serializedObjectId : String) (attr_list : List OtaiAttr) :
    (get serialize transfer resp objectType serializedObjectId attr_list).2 =
      [ChannelOp.get
         (otai_serialize_object_type objectType ++ ":" ++ serializedObjectId)
         (serialize objectType (clearOidValues objectType attr_list)),
       ChannelOp.wait] ∧
    (∀ a ∈ clearOidValues objectType attr_list, ∀ xs : List Nat,
      a.value = OtaiAttrValue.oidList xs → xs = []) := by
  constructor
  · rfl
  · intro a ha xs hx
    rcases List.mem_map.mp ha with ⟨b, hb, rfl⟩
    exact clearOidValue_oidList b xs hx

/-- Witness for C8 at a one-attribute pre-poisoned buffer. -/
theorem C8_get_clears_oid_lists_witness :
    (get (fun _ _ => []) (fun _ _ l => l) (OtaiStatus.failure, []) 1 "oid1"
      [⟨5, OtaiAttrValue.oidList [7]⟩]).2 =
      [ChannelOp.get (otai_serialize_object_type 1 ++ ":" ++ "oid1") [],
       ChannelOp.wait] ∧
    ([] : List Nat) = [] := by
  have h := C8_get_clears_oid_lists (fun _ _ => []) (fun _ _ l => l)
    (OtaiStatus.failure, []) 1 "oid1" [⟨5, OtaiAttrValue.oidList [7]⟩]
  exact ⟨h.1, h.2 ⟨5, OtaiAttrValue.oidList []⟩ (by decide) [] rfl⟩

/-- Claim C9: the lifecycle state machine: initialize fails and is a no-op
while initialized and otherwise succeeds, becoming initialized with the
tracked linecard dropped; uninitialize fails and is a no-op while
uninitialized and otherwise succeeds, becoming uninitialized. -/
theorem C9_lifecycle (st : IfaceState) :
    (st.m_initialized = true → initializeIface st = (OtaiStatus.failure, st)) ∧
    (st.m_initialized = false →
      initializeIface st = (OtaiStatus.success, ⟨true, none⟩)) ∧
    (st.m_initialized = false →
      uninitializeIface st = (OtaiStatus.failure, st)) ∧
    (st.m_initialized = true →
      uninitializeIface st = (OtaiStatus.success, ⟨false, none⟩)) := by
  refine ⟨fun h => ?_, fun h => ?_, fun h => ?_, fun h => ?_⟩ <;>
    simp [initializeIface, uninitializeIface, clear_local_state, h]

/-- Witness for C9 at both states. -/
theorem C9_lifecycle_witness :
    initializeIface ⟨true, none⟩ = (OtaiStatus.failure, ⟨true, none⟩) ∧
    initializeIface ⟨false, none⟩ = (OtaiStatus.success, ⟨true, none⟩) ∧
    uninitializeIface ⟨false, none⟩ = (OtaiStatus.failure, ⟨false, none⟩) ∧
    uninitializeIface ⟨true, none⟩ = (OtaiStatus.success, ⟨false, none⟩) := by
  have h1 := C9_lifecycle ⟨true, none⟩
  have h2 := C9_lifecycle ⟨false, none⟩
  exact ⟨h1.1 rfl, h2.2.1 rfl, h2.2.2.1 rfl, h1.2.2.2 rfl⟩

/-- Claim C10: a set on the linecard type with a non-extension attribute
while no linecard is tracked still returns the `Success` of the round trip,
attempts no callback-table update, and leaves the state unchanged (so no
entity appears as a side effect). -/
theorem C10_set_no_linecard_frame (st : IfaceState)
    (serialize : Nat → List OtaiAttr → List (String × String)) (objectId : Nat)
    (attr : OtaiAttr) (h1 : st.m_linecard = none)
    (h2 : attr.id < OTAI_LINECARD_ATTR_CUSTOM_RANGE_START) :
    set st serialize OtaiStatus.success OTAI_OBJECT_TYPE_LINECARD objectId attr =
      (OtaiStatus.success, st,
       [ChannelOp.set
          (otai_serialize_object_type OTAI_OBJECT_TYPE_LINECARD ++ ":"
            ++ otai_serialize_object_id objectId)
          (serialize OTAI_OBJECT_TYPE_LINECARD [attr]),
        ChannelOp.wait]) := by
  have hred : isRedisAttribute OTAI_OBJECT_TYPE_LINECARD attr = false := by
    simp [isRedisAttribute, h2]
  simp [set, hred, setSerialized, h1]

/-- Witness for C10 at an untracked state and an ordinary attribute. -/
theorem C10_set_no_linecard_frame_witness :
    set ⟨true, none⟩ (fun _ _ => []) OtaiStatus.success OTAI_OBJECT_TYPE_LINECARD 4
        ⟨2, OtaiAttrValue.raw "v"⟩ =
      (OtaiStatus.success, ⟨true, none⟩,
       [ChannelOp.set
          (otai_serialize_object_type OTAI_OBJECT_TYPE_LINECARD ++ ":"
            ++ otai_serialize_object_id 4)
          [],
        ChannelOp.wait]) :=
  C10_set_no_linecard_frame ⟨true, none⟩ (fun _ _ => []) 4
    ⟨2, OtaiAttrValue.raw "v"⟩ rfl (by decide)

end RedisRemoteOtaiInterface
